import Mathlib

/-
Verification of the C-header-to-ctypes binding compiler of twin.py
(functions ctypes_preprocess, ctypes_map_type, ctypes_get_or_create_type,
ctypes_parse_fields, ctypes_parse_typedef, ctypes_parse_function,
ctypes_parse_struct, ctypes_parse_define, ctypes_parse_definitions,
ctypes_hook_dll and CTypesHelper.__call__).

The Python source is shallowly embedded: strings are lists of characters,
Python dicts are association lists with overwrite-in-place insertion,
ctypes type objects are the inductive CType, a Python value that may be a
string, None, or a ctypes type (the values of the type registry) is CVal,
and Python exceptions are modelled with Except.  The regular expressions
of the source are embedded as deterministic scanners; each scanner carries
a comment with the original pattern and a justification of how greedy
matching and backtracking were resolved.  while-loops are embedded with an
explicit fuel argument chosen large enough for every terminating run of
the Python code.
-/

namespace Twin

/-- Python strings are modelled as lists of characters. -/
abbrev Str := List Char

/-- Python re module whitespace class \s for byte strings (ASCII). -/
def pyIsSpace (c : Char) : Bool :=
  c = ' ' || c = '\t' || c = '\n' || c = '\r' || c = '\x0b' || c = '\x0c'

/-- Python re module word class \w for byte strings: [a-zA-Z0-9_]. -/
def pyIsWord (c : Char) : Bool :=
  c.isAlpha || c.isDigit || c = '_'

/-- Python str.strip from the left. -/
def pstripL (s : Str) : Str := s.dropWhile pyIsSpace

/-- Python str.strip (both ends). -/
def pstrip (s : Str) : Str :=
  ((s.dropWhile pyIsSpace).reverse.dropWhile pyIsSpace).reverse

/-- Python str.split(sep) with a one-character separator: keeps empty
pieces, and the empty string splits to one empty piece. -/
def psplit (sep : Char) : Str → List Str
  | [] => [[]]
  | c :: rest =>
    if c = sep then [] :: psplit sep rest
    else
      match psplit sep rest with
      | [] => [[c]]
      | h :: t => (c :: h) :: t

/-- Python str.split() with no argument: split on whitespace runs,
dropping empty pieces.  Fuel-free: structural on the tail after the
taken token. -/
def psplitWSGo (fuel : Nat) (s : Str) : List Str :=
  match fuel, s with
  | 0, _ => []
  | _, [] => []
  | fuel + 1, c :: rest =>
    if pyIsSpace c then psplitWSGo fuel rest
    else
      (c :: rest.takeWhile (fun x => ! pyIsSpace x)) ::
        psplitWSGo fuel (rest.dropWhile (fun x => ! pyIsSpace x))

def psplitWS (s : Str) : List Str := psplitWSGo s.length s

/-- Does pat occur as a prefix of s (Python str.startswith)? -/
def isStartOf : Str → Str → Bool
  | [], _ => true
  | _ :: _, [] => false
  | p :: ps, c :: cs => p = c && isStartOf ps cs

/-- Does pat occur as a substring of s (Python in operator on str)? -/
def isSubstr (pat : Str) : Str → Bool
  | [] => isStartOf pat []
  | s@(_ :: rest) => isStartOf pat s || isSubstr pat rest

/-- Python str.replace(pat, other-string-empty): remove every
non-overlapping occurrence of pat, scanning left to right. -/
def subReplGo (pat : Str) (fuel : Nat) (s : Str) : Str :=
  match fuel, s with
  | 0, s => s
  | _, [] => []
  | fuel + 1, c :: rest =>
    if pat ≠ [] && isStartOf pat (c :: rest) then
      subReplGo pat fuel ((c :: rest).drop pat.length)
    else
      c :: subReplGo pat fuel rest

def subRepl (pat : Str) (s : Str) : Str := subReplGo pat s.length s

/-- Python byte-string lexicographic comparison (s < t). -/
def pyLexLt : Str → Str → Bool
  | [], [] => false
  | [], _ :: _ => true
  | _ :: _, [] => false
  | a :: as_, b :: bs =>
    if a.toNat < b.toNat then true
    else if b.toNat < a.toNat then false
    else pyLexLt as_ bs

/-- Insert into a descending-sorted list (used to model
sorted(l, reverse=True)). -/
def sortRevInsert (x : Str) : List Str → List Str
  | [] => [x]
  | y :: ys => if pyLexLt x y then y :: sortRevInsert x ys else x :: y :: ys

/-- Python sorted(l, reverse=True).  The struct parser only sorts lists of
distinct names, for which any descending sort agrees with CPython's. -/
def pySortRev (l : List Str) : List Str := l.foldr sortRevInsert []

/-- Association-list lookup: Python d[k] / d.get(k). -/
def dlookup (k : Str) : List (Str × α) → Option α
  | [] => none
  | (k2, v) :: rest => if k2 = k then some v else dlookup k rest

/-- Association-list store: Python d[k] = v.  Overwrites in place,
appends if absent (keys stay unique, last write wins). -/
def dinsert (k : Str) (v : α) : List (Str × α) → List (Str × α)
  | [] => [(k, v)]
  | (k2, v2) :: rest =>
    if k2 = k then (k, v) :: rest else (k2, v2) :: dinsert k v rest

/-- Remove every binding of a key (used only to state frame properties). -/
def perase (k : Str) : List (Str × α) → List (Str × α)
  | [] => []
  | (k2, v) :: rest =>
    if k2 = k then perase k rest else (k2, v) :: perase k rest

/-- The ctypes type objects the binding compiler manipulates.  Primitive
constructors mirror the distinct ctypes classes on the 32-bit Windows
CPython 2 the source targets; pointer, array, struct and WINFUNCTYPE
types are built structurally (ctypes caches POINTER and array types, so
structural identity mirrors object identity for derived types). -/
inductive CType where
  | c_char | c_wchar | c_short | c_int | c_long | c_longlong
  | c_ubyte | c_ushort | c_uint | c_ulong | c_ulonglong
  | c_float | c_double
  | c_ssize_t | c_size_t
  | c_char_p | c_wchar_p | c_void_p
  | pointer (t : CType)
  | array (t : CType) (n : Nat)
  | struct (nm : Str) (fields : List (Str × CType)) (pack : Option Int)
  | winfunc (nm : Str) (ret : Option CType) (args : List (Option CType))

/-- ctypes.c_int16 is the same class object as ctypes.c_short on the
target platform (16-bit short). -/
def c_int16 : CType := CType.c_short

/-- ctypes.c_int32 is the same class object as ctypes.c_int on the
target platform (32-bit int). -/
def c_int32 : CType := CType.c_int

/-- ctypes.c_uint16 is ctypes.c_ushort on the target platform. -/
def c_uint16 : CType := CType.c_ushort

/-- ctypes.c_uint32 is ctypes.c_uint on the target platform. -/
def c_uint32 : CType := CType.c_uint

/-- A value stored in the type registry dict: a ctypes type, the Python
None (the mapping of "void"), or a string naming another entry (the
mapping of "unsigned" is the string "unsigned int"). -/
inductive CVal where
  | pystr (s : Str)
  | pynone
  | ct (t : CType)

/-- A value stored in the constant table dict: an int, a float (kept as
its uninterpreted literal text), or an unparsed string. -/
inductive DVal where
  | i (n : Int)
  | fl (s : Str)
  | s (str : Str)

/-- The Python exceptions the embedded code can raise. -/
inductive PyErr where
  | valueError (msg : Str)
  | typeError
  | attributeError
  | indexError
  | assertionError (msg : Str)
  | outOfFuel
deriving DecidableEq

/-- Type registry: mapping TypeName -> layout (twin.py type_mapping). -/
abbrev TM := List (Str × CVal)

/-- Constant table: macro name -> resolved value (constant_mapping). -/
abbrev CM := List (Str × DVal)

/-- Prototype table: function name -> WINFUNCTYPE (proto_mapping). -/
abbrev PM := List (Str × CType)

/-- twin.py ctypes_default_type_mapping: the pre-seeded primitive set, in
source order. -/
def ctypes_default_type_mapping : TM := [
  ( "char".data, .ct .c_char),
  ( "wchar".data, .ct .c_wchar),
  ( "short".data, .ct .c_short),
  ( "int".data, .ct .c_int),
  ( "long".data, .ct .c_long),
  ( "int16".data, .ct c_int16),
  ( "int32".data, .ct c_int32),
  ( "uint16".data, .ct c_uint16),
  ( "uint32".data, .ct c_uint32),
  ( "long long".data, .ct .c_longlong),
  ( "unsigned long long".data, .ct .c_ulonglong),
  ( "unsigned char".data, .ct .c_ubyte),
  ( "unsigned wchar".data, .ct .c_ushort),
  ( "unsigned short".data, .ct .c_ushort),
  ( "unsigned int".data, .ct .c_uint),
  ( "unsigned long".data, .ct .c_ulong),
  ( "unsigned".data, .pystr "unsigned int".data),
  ( "float".data, .ct .c_float),
  ( "double".data, .ct .c_double),
  ( "void".data, .pynone),
  ( "uint32_t".data, .ct c_uint32),
  ( "intptr_t".data, .ct .c_ssize_t),
  ( "uintptr_t".data, .ct .c_size_t),
  ( "charptr_t".data, .ct .c_char_p),
  ( "wcharptr_t".data, .ct .c_wchar_p),
  ( "voidptr_t".data, .ct .c_void_p)]

/-- The while-loop of twin.py ctypes_map_type: follow string aliases
while they are keys of the mapping.  A non-cyclic alias chain visits
distinct keys, so fuel length+1 reproduces every terminating run of the
Python loop. -/
def ctypes_map_type_loop (tm : TM) : Nat → CVal → CVal
  | 0, v => v
  | fuel + 1, v =>
    match v with
    | .pystr s =>
      match dlookup s tm with
      | some v2 => ctypes_map_type_loop tm fuel v2
      | none => .pystr s
    | v => v

/-- twin.py ctypes_map_type: strips the substring "const" from the name,
then resolves alias chains through the mapping. -/
def ctypes_map_type (tm : TM) (base_type : Str) : CVal :=
  ctypes_map_type_loop tm (tm.length + 1) (.pystr (subRepl "const".data base_type))

/-- n applications of ctypes.POINTER. -/
def iterPointer : Nat → CType → CType
  | 0, t => t
  | n + 1, t => .pointer (iterPointer n t)

/-- Strip n Pointer layers, if they are there. -/
def stripPointer : Nat → CType → Option CType
  | 0, t => some t
  | n + 1, .pointer t => stripPointer n t
  | _ + 1, _ => none

/-- The value of a digit character in base b (0-9, a-f, A-F), none if
it is not a digit of that base. -/
def digitVal (b : Nat) (c : Char) : Option Nat :=
  let n := c.toNat
  let v : Option Nat :=
    if 48 ≤ n && n ≤ 57 then some (n - 48)
    else if 97 ≤ n && n ≤ 102 then some (n - 87)
    else if 65 ≤ n && n ≤ 70 then some (n - 55)
    else none
  v.bind (fun d => if d < b then some d else none)

/-- Base-b digit accumulation over a whole string: none unless the
string is nonempty and every character is a digit of the base. -/
def parseBase (b : Nat) (s : Str) : Option Nat :=
  if s = [] then none
  else
    s.foldl (fun acc c =>
      match acc, digitVal b c with
      | some a, some d => some (a * b + d)
      | _, _ => none) (some 0)

/-- Python int(s) with the default base 10, restricted to the strings the
array-size regex can produce (\w+, hence no sign): all digits or error. -/
def pyIntDec (s : Str) : Option Int :=
  (parseBase 10 s).map Int.ofNat

/-- The first pointer wrap of twin.py ctypes_get_or_create_type: the
innermost star special-cases c_char to c_char_p, c_wchar to c_wchar_p and
a resolved None (void) to c_void_p; POINTER of a string alias that
escaped resolution raises TypeError in ctypes. -/
def innermostPointer : CVal → Except PyErr CType
  | .ct .c_char => .ok .c_char_p
  | .ct .c_wchar => .ok .c_wchar_p
  | .pynone => .ok .c_void_p
  | .ct t => .ok (.pointer t)
  | .pystr _ => .error .typeError

/-- The array wrap of twin.py ctypes_get_or_create_type:
ctypes_ftype * array_size.  A negative length raises ValueError in
ctypes; multiplying the Python None raises TypeError; a string left in
the mapping multiplies as Python string repetition. -/
def arrayWrap (f : CVal) (size : Int) : Except PyErr CVal :=
  match f with
  | .ct t =>
    if size < 0 then .error (.valueError "array size".data)
    else .ok (.ct (.array t size.toNat))
  | .pynone => .error .typeError
  | .pystr s => .ok (.pystr (List.flatten (List.replicate size.toNat s)))

/-- twin.py ctypes_get_or_create_type: derive a type from qualifiers, a
base type name, a star count and an optional array-size token. -/
def ctypes_get_or_create_type (tm : TM) (cm : CM) (qualifiers : Str)
    (base_type_name : Str) (num_stars : Nat) (array_size : Option Str) :
    Except PyErr CVal :=
  let btn := if isSubstr "unsigned".data qualifiers
             then "unsigned ".data ++ base_type_name else base_type_name
  match dlookup btn tm with
  | none => .error (.valueError btn)
  | some _ =>
    let ftype := ctypes_map_type tm btn
    let derived : Except PyErr CVal :=
      if num_stars > 0 then
        match innermostPointer ftype with
        | .error e => .error e
        | .ok inner => .ok (.ct (iterPointer (num_stars - 1) inner))
      else .ok ftype
    match derived with
    | .error e => .error e
    | .ok f1 =>
      match array_size with
      | none => .ok f1
      | some astr =>
        match dlookup astr cm with
        | some (.i n) => arrayWrap f1 n
        | some _ => .error .typeError
        | none =>
          match pyIntDec astr with
          | some n => arrayWrap f1 n
          | none => .error (.valueError astr)

/-- Python int(value, 0): sign, then 0x/0X hex, 0b/0B binary, 0o/0O octal,
a legacy 0-prefixed octal literal, or decimal; anything else raises
ValueError (modelled as none). -/
def pyIntBase0 (s : Str) : Option Int :=
  let (neg, r) :=
    match s with
    | '-' :: r => (true, r)
    | '+' :: r => (false, r)
    | r => (false, r)
  let mag : Option Nat :=
    if isStartOf "0x".data r || isStartOf "0X".data r then parseBase 16 (r.drop 2)
    else if isStartOf "0b".data r || isStartOf "0B".data r then parseBase 2 (r.drop 2)
    else if isStartOf "0o".data r || isStartOf "0O".data r then parseBase 8 (r.drop 2)
    else
      match r with
      | [] => none
      | '0' :: rest => if rest = [] then some 0 else parseBase 8 rest
      | _ => parseBase 10 r
  mag.map (fun n => if neg then -(Int.ofNat n) else Int.ofNat n)

/-- Python float(value) well-formedness (the value itself is kept as an
uninterpreted literal, only the parse success matters downstream). -/
def floatExpTail (s : Str) : Bool :=
  match s with
  | [] => true
  | c :: r =>
    if c = 'e' || c = 'E' then
      let r2 := match r with | '+' :: r2 => r2 | '-' :: r2 => r2 | r2 => r2
      r2 ≠ [] && r2.all Char.isDigit
    else false

def pyIsFloat (s : Str) : Bool :=
  let r := match s with | '+' :: r => r | '-' :: r => r | r => r
  let low := r.map Char.toLower
  if low = "inf".data || low = "infinity".data || low = "nan".data then true
  else
    let ip := r.takeWhile Char.isDigit
    let r2 := r.drop ip.length
    match r2 with
    | '.' :: r3 =>
      let fr := r3.takeWhile Char.isDigit
      (ip ≠ [] || fr ≠ []) && floatExpTail (r3.drop fr.length)
    | _ => ip ≠ [] && floatExpTail r2

/-! The field_pattern regex of twin.py ctypes_parse_fields:

  \s* (?P<qualifiers> ((const|signed|unsigned|volatile|CONST)\s+)* )
  (?P<type> \w+(\s+\w+)* )
  (?P<name> ([*]|\s+)+\w+ (\s*,\s*([*]|\s+)*\w+)* )
  \s* (\[\s*(?P<arraysize>\d+|\w+)\s*\])? \s*$

Backtracking notes.  All character-class repetitions are over classes
disjoint from the character that follows them, so they match maximally.
The only regex backtracking that can change the outcome is on the two
counted repetitions: the qualifier run (a qualifier followed by a single
trailing identifier becomes part of the type instead, e.g. in
"unsigned a") and the type word run (the final word, or the words after
a star, move into the name group).  Both are searched here from the
maximal count downward, exactly as the regex engine does. -/

def qualKeywords : List Str :=
  [ "const".data, "signed".data, "unsigned".data, "volatile".data, "CONST".data]

/-- Maximal repetitions of ((const|signed|unsigned|volatile|CONST)\s+),
returned as (keyword, following-whitespace) pairs. -/
def parseQualReps : Nat → Str → List (Str × Str)
  | 0, _ => []
  | fuel + 1, s =>
    let w := s.takeWhile pyIsWord
    if qualKeywords.contains w then
      let g := (s.drop w.length).takeWhile pyIsSpace
      if g ≠ [] then (w, g) :: parseQualReps fuel (s.drop (w.length + g.length))
      else []
    else []

/-- Maximal repetitions of (\s+\w+) as (gap, word) pairs, both parts
nonempty (the tail of the type group after its first word). -/
def collectMore : Nat → Str → List (Str × Str)
  | 0, _ => []
  | fuel + 1, s =>
    let g := s.takeWhile pyIsSpace
    if g = [] then []
    else
      let w := (s.drop g.length).takeWhile pyIsWord
      if w = [] then []
      else (g, w) :: collectMore fuel (s.drop (g.length + w.length))

/-- The word list matched by the type group \w+(\s+\w+)* at its maximal
repetition count, as (gap-before, word) pairs with an empty first gap. -/
def collectWords (s : Str) : List (Str × Str) :=
  let w1 := s.takeWhile pyIsWord
  if w1 = [] then [] else ([], w1) :: collectMore s.length (s.drop w1.length)

def pairsLen (l : List (Str × Str)) : Nat :=
  l.foldl (fun n p => n + p.1.length + p.2.length) 0

def concatPairs (l : List (Str × Str)) : Str :=
  (l.map (fun p => p.1 ++ p.2)).flatten

/-- Consumed length of the repetitions (\s*,\s*([*]|\s+)*\w+)* of the
name group, matched maximally (a shorter match leaves a comma that
nothing after the name group can consume). -/
def nameRepsGo : Nat → Str → Nat
  | 0, _ => 0
  | fuel + 1, s =>
    let g1 := s.takeWhile pyIsSpace
    match s.drop g1.length with
    | ',' :: r2 =>
      let run := r2.takeWhile (fun c => c = '*' || pyIsSpace c)
      let w2 := (r2.drop run.length).takeWhile pyIsWord
      if w2 = [] then 0
      else
        let step := g1.length + 1 + run.length + w2.length
        step + nameRepsGo fuel (s.drop step)
    | _ => 0

/-- The name group ([*]|\s+)+\w+(\s*,\s*([*]|\s+)*\w+)*: its matched text
and the rest of the input. -/
def matchNameGroup (s : Str) : Option (Str × Str) :=
  let run1 := s.takeWhile (fun c => c = '*' || pyIsSpace c)
  if run1 = [] then none
  else
    let w := (s.drop run1.length).takeWhile pyIsWord
    if w = [] then none
    else
      let k := run1.length + w.length +
        nameRepsGo s.length (s.drop (run1.length + w.length))
      some (s.take k, s.drop k)

/-- The tail \s*(\[\s*(?P<arraysize>\d+|\w+)\s*\])?\s*$ of field_pattern;
returns the arraysize group on a match. -/
def matchTail (s : Str) : Option (Option Str) :=
  match s.dropWhile pyIsSpace with
  | [] => some none
  | '[' :: r2 =>
    let r3 := r2.dropWhile pyIsSpace
    let wd := r3.takeWhile pyIsWord
    if wd = [] then none
    else
      match (r3.drop wd.length).dropWhile pyIsSpace with
      | ']' :: r5 => if (r5.dropWhile pyIsSpace) = [] then some (some wd) else none
      | _ => none
  | _ => none

/-- Try the type group at k words (k counting down from the maximal
repetition count, as the regex engine backtracks). -/
def tryK (sq : Str) (pairs : List (Str × Str)) : Nat → Option (Str × Str × Option Str)
  | 0 => none
  | k + 1 =>
    let used := pairs.take (k + 1)
    let rest := sq.drop (pairsLen used)
    match matchNameGroup rest with
    | some (ntext, rest2) =>
      match matchTail rest2 with
      | some asize => some (concatPairs used, ntext, asize)
      | none => tryK sq pairs k
    | none => tryK sq pairs k

/-- The attempt of the whole pattern at exactly q qualifier repetitions. -/
def tryQAt (s1 : Str) (quals : List (Str × Str)) (q : Nat) :
    Option (Str × Str × Str × Option Str) :=
  let used := quals.take q
  let sq := s1.drop (pairsLen used)
  let pairs := collectWords sq
  match tryK sq pairs pairs.length with
  | some (t, n, a) => some (concatPairs used, t, n, a)
  | none => none

/-- Try the qualifier group at q repetitions, counting down from the
maximal count, as the regex engine backtracks. -/
def tryQ (s1 : Str) (quals : List (Str × Str)) : Nat → Option (Str × Str × Str × Option Str)
  | 0 => tryQAt s1 quals 0
  | q + 1 =>
    match tryQAt s1 quals (q + 1) with
    | some r => some r
    | none => tryQ s1 quals q

/-- re.match(field_pattern, field, re.VERBOSE): the four groups
(qualifiers, type, name, arraysize) or none. -/
def matchFieldPattern (s : Str) : Option (Str × Str × Str × Option Str) :=
  let s1 := s.dropWhile pyIsSpace
  let quals := parseQualReps s1.length s1
  tryQ s1 quals quals.length

/-- The inner loop of twin.py ctypes_parse_fields over the comma-separated
declarator names of one field.  The array size only applies to the last
declarator (the source compares with field_names[-1]). -/
def fieldNamesLoop (tm : TM) (cm : CM) (quals baseT : Str) (asize : Option Str) :
    List Str → Except PyErr (List (Str × CVal))
  | [] => .ok []
  | nm :: rest =>
    let num_stars := nm.count '*'
    let nm' := pstrip (nm.filter (fun c => c ≠ '*'))
    let arr := if rest = [] then asize else none
    match ctypes_get_or_create_type tm cm quals baseT num_stars arr with
    | .error e => .error e
    | .ok t =>
      match fieldNamesLoop tm cm quals baseT asize rest with
      | .error e => .error e
      | .ok l => .ok ((nm', t) :: l)

/-- The outer loop of twin.py ctypes_parse_fields: an empty element (after
strip) breaks out of the loop, a non-matching element raises ValueError. -/
def fieldsLoop (tm : TM) (cm : CM) : List Str → Except PyErr (List (Str × CVal))
  | [] => .ok []
  | f :: rest =>
    let f2 := pstrip f
    if f2 = [] then .ok []
    else
      match matchFieldPattern f2 with
      | none => .error (.valueError f2)
      | some (quals, ftype, fnames, asize) =>
        let baseT := pstrip ftype
        let names := psplit ',' (pstrip fnames)
        match fieldNamesLoop tm cm quals baseT asize names with
        | .error e => .error e
        | .ok l1 =>
          match fieldsLoop tm cm rest with
          | .error e => .error e
          | .ok l2 => .ok (l1 ++ l2)

/-- twin.py ctypes_parse_fields. -/
def ctypes_parse_fields (s : Str) (tm : TM) (cm : CM) (sep : Char) :
    Except PyErr (List (Str × CVal)) :=
  fieldsLoop tm cm (psplit sep s)

/-- re.match of the typedef parser:  \s*typedef\s+([^\(\{;]*;)\s*
The class excludes its closer, so every repetition is maximal; returns
(match end, group 1). -/
def matchTypedefRe (s : Str) : Option (Nat × Str) :=
  let r1 := s.dropWhile pyIsSpace
  if isStartOf "typedef".data r1 then
    let r2 := r1.drop 7
    if (r2.takeWhile pyIsSpace) = [] then none
    else
      let r3 := r2.dropWhile pyIsSpace
      let body := r3.takeWhile (fun c => ! (c = '(' || c = '{' || c = ';'))
      match r3.drop body.length with
      | ';' :: r5 =>
        let r6 := r5.dropWhile pyIsSpace
        some (s.length - r6.length, body ++ [';'])
      | _ => none
  else none

/-- twin.py ctypes_parse_typedef: none of the tables change on a
non-match; on a match every (name, type) pair is stored in the type
registry. -/
def ctypes_parse_typedef (s : Str) (tm : TM) (cm : CM) :
    Except PyErr (Option Nat × TM) :=
  match matchTypedefRe s with
  | none => .ok (none, tm)
  | some (e, grp) =>
    let tdef := pstrip grp
    match ctypes_parse_fields tdef tm cm ';' with
    | .error err => .error err
    | .ok fields => .ok (some e, fields.foldl (fun t p => dinsert p.1 p.2 t) tm)

/-- re.match of the struct parser:
  \s*(typedef\s+struct|struct)(\s+(?P<sname>\w+))?\s*\{(?P<sbody>[^\}]*)\}
  \s*(?P<tnames>[^;]+)?;\s*
If the first keyword alternative matches, the second cannot match the
same text, so the alternation is deterministic; the optional sname group
participates exactly when whitespace followed by a word follows the
keyword; the unmatched optional tnames group is None. -/
def matchStructRe (s : Str) : Option (Nat × Option Str × Str × Option Str) :=
  let s0 := s.dropWhile pyIsSpace
  let afterKw : Option Str :=
    if isStartOf "typedef".data s0 then
      let a := s0.drop 7
      if (a.takeWhile pyIsSpace) = [] then none
      else
        let b := a.dropWhile pyIsSpace
        if isStartOf "struct".data b then some (b.drop 6) else none
    else if isStartOf "struct".data s0 then some (s0.drop 6)
    else none
  match afterKw with
  | none => none
  | some r =>
    let wsr := r.takeWhile pyIsSpace
    let r1 := r.dropWhile pyIsSpace
    let nmTok := r1.takeWhile pyIsWord
    let snr : Option Str × Str :=
      if wsr ≠ [] && nmTok ≠ [] then
        (some nmTok, (r1.drop nmTok.length).dropWhile pyIsSpace)
      else (none, r1)
    match snr.2 with
    | '{' :: r3 =>
      let sbody := r3.takeWhile (fun c => c ≠ '}')
      match r3.drop sbody.length with
      | '}' :: r4 =>
        let r5 := r4.dropWhile pyIsSpace
        let tn := r5.takeWhile (fun c => c ≠ ';')
        match r5.drop tn.length with
        | ';' :: r6 =>
          let r7 := r6.dropWhile pyIsSpace
          some (s.length - r7.length, snr.1, sbody,
                if tn = [] then none else some tn)
        | _ => none
      | _ => none
    | _ => none

/-- ctypes Structure creation: a field whose type is the Python None or a
string raises TypeError. -/
def structFieldsConvert : List (Str × CVal) → Except PyErr (List (Str × CType))
  | [] => .ok []
  | (n, .ct t) :: rest =>
    match structFieldsConvert rest with
    | .error e => .error e
    | .ok l => .ok ((n, t) :: l)
  | (_, _) :: _ => .error .typeError

/-- The loop of twin.py ctypes_parse_struct over the sorted candidate
names: the first iteration creates the one struct class (named by the
name when it has no stars, by a synthesized Struct_ name otherwise), and
every candidate is stored wrapped in as many POINTER layers as it has
stars. -/
def structFoldGo (fields : List (Str × CType)) (pack : Option Int) :
    List Str → Option CType → TM → TM
  | [], _, tm => tm
  | nm :: rest, base?, tm =>
    let num_stars := nm.count '*'
    let nm' := pstrip (nm.filter (fun c => c ≠ '*'))
    let base :=
      match base? with
      | some b => b
      | none =>
        CType.struct (if num_stars = 0 then nm' else "Struct_".data ++ nm') fields pack
    structFoldGo fields pack rest (some base)
      (dinsert nm' (.ct (iterPointer num_stars base)) tm)

/-- twin.py ctypes_parse_struct.  The source reads the optional tnames
group with m.groupdict().get("tnames", ""), which returns None (the key
is present) when the alias list is absent, and None.split(",") raises
AttributeError. -/
def ctypes_parse_struct (s : Str) (tm : TM) (cm : CM) (pack : Option Int) :
    Except PyErr (Option Nat × TM) :=
  match matchStructRe s with
  | none => .ok (none, tm)
  | some (e, sname, sbody, tnames) =>
    match tnames with
    | none => .error .attributeError
    | some tn =>
      let struct_type_names :=
        psplit ',' tn ++ (match sname with | some n => [n] | none => [])
      match ctypes_parse_fields sbody tm cm ';' with
      | .error err => .error err
      | .ok cfieldsV =>
        match structFieldsConvert cfieldsV with
        | .error err => .error err
        | .ok cfields =>
          .ok (some e, structFoldGo cfields pack (pySortRev struct_type_names) none tm)

/-- re.match of the define parser: \s*#\s*define\s+(\w+)\s+([^\n]*)
Returns (match end, name, raw value); the match ends before the newline. -/
def matchDefineRe (s : Str) : Option (Nat × Str × Str) :=
  match s.dropWhile pyIsSpace with
  | '#' :: r1 =>
    let r2 := r1.dropWhile pyIsSpace
    if isStartOf "define".data r2 then
      let r3 := r2.drop 6
      if (r3.takeWhile pyIsSpace) = [] then none
      else
        let r4 := r3.dropWhile pyIsSpace
        let dname := r4.takeWhile pyIsWord
        if dname = [] then none
        else
          let r5 := r4.drop dname.length
          if (r5.takeWhile pyIsSpace) = [] then none
          else
            let r6 := r5.dropWhile pyIsSpace
            let dvalue := r6.takeWhile (fun c => c ≠ '\n')
            some (s.length - (r6.length - dvalue.length), dname, dvalue)
    else none
  | _ => none

/-- twin.py ctypes_parse_define: parse the value as int (base from the
prefix), then float, else keep the string; a string value equal to an
existing constant name is replaced by that constant's already-resolved
value, once, at definition time. -/
def ctypes_parse_define (s : Str) (tm : TM) (cm : CM) :
    Except PyErr (Option Nat × CM) :=
  match matchDefineRe s with
  | none => .ok (none, cm)
  | some (e, dname, dvalueRaw) =>
    let dv := pstrip dvalueRaw
    let dvalue : DVal :=
      match pyIntBase0 dv with
      | some n => .i n
      | none => if pyIsFloat dv then .fl dv else .s dv
    let dvalue2 :=
      match dvalue with
      | .s nm => (dlookup nm cm).getD (.s nm)
      | v => v
    .ok (some e, dinsert dname dvalue2 cm)

/-- re.match of the function-typedef form:
  \s*typedef\s+(?P<rtype>[^(]*)\((?P<fname>[^)]*)\)\s*\((?P<fargs>[^)]*)\)\s*;\s*
Every class excludes its closer, so the scan is deterministic. -/
def matchFuncTypedefRe (s : Str) : Option (Nat × Str × Str × Str) :=
  let r1 := s.dropWhile pyIsSpace
  if isStartOf "typedef".data r1 then
    let r2 := r1.drop 7
    if (r2.takeWhile pyIsSpace) = [] then none
    else
      let r3 := r2.dropWhile pyIsSpace
      let rtype := r3.takeWhile (fun c => c ≠ '(')
      match r3.drop rtype.length with
      | '(' :: r4 =>
        let fname := r4.takeWhile (fun c => c ≠ ')')
        match r4.drop fname.length with
        | ')' :: r5 =>
          match r5.dropWhile pyIsSpace with
          | '(' :: r6 =>
            let fargs := r6.takeWhile (fun c => c ≠ ')')
            match r6.drop fargs.length with
            | ')' :: r7 =>
              match r7.dropWhile pyIsSpace with
              | ';' :: r8 =>
                let r9 := r8.dropWhile pyIsSpace
                some (s.length - r9.length, rtype, fname, fargs)
              | _ => none
            | _ => none
          | _ => none
        | _ => none
      | _ => none
  else none

/-- Maximal repetitions of (\w+\s+) as (word, gap) pairs, both parts
nonempty (the counted repetition of the bare-prototype return type). -/
def collectPairsWW : Nat → Str → List (Str × Str)
  | 0, _ => []
  | fuel + 1, s =>
    let w := s.takeWhile pyIsWord
    if w = [] then []
    else
      let g := (s.drop w.length).takeWhile pyIsSpace
      if g = [] then []
      else (w, g) :: collectPairsWW fuel (s.drop (w.length + g.length))

/-- The common tail \((?P<fargs>[^)]*)\);\s* of the bare-prototype form
(no whitespace allowed between the closing paren and the semicolon). -/
def bareFinish (total : Nat) (q2 : Str) (rtype fname : Str) :
    Option (Nat × Str × Str × Str) :=
  let fargs := q2.takeWhile (fun c => c ≠ ')')
  match q2.drop fargs.length with
  | ')' :: ';' :: r7 =>
    let r8 := r7.dropWhile pyIsSpace
    some (total - r8.length, rtype, fname, fargs)
  | _ => none

/-- re.match of the bare-prototype form:
  \s*(?P<rtype>[*]?\s*(\w+\s+)+)(?P<fname>\w+)\s*\((?P<fargs>[^)]*)\);\s*
At the maximal repetition count of (\w+\s+)+, either a fresh word
followed directly by an opening paren serves as the name, or the engine
backtracks exactly one repetition and the last repetition's word becomes
the name; further backtracking always lands the required paren on a word
character and fails. -/
def matchFuncBareRe (s : Str) : Option (Nat × Str × Str × Str) :=
  let s0 := s.dropWhile pyIsSpace
  let sr : Str × Str := match s0 with | '*' :: r => ([ '*' ], r) | r => ([], r)
  let ws1 := sr.2.takeWhile pyIsSpace
  let r2 := sr.2.drop ws1.length
  let pairs := collectPairsWW r2.length r2
  if pairs = [] then none
  else
    let p := r2.drop (pairsLen pairs)
    let w2 := p.takeWhile pyIsWord
    if w2 ≠ [] then
      match (p.drop w2.length).dropWhile pyIsSpace with
      | '(' :: q2 =>
        bareFinish s.length q2 (sr.1 ++ ws1 ++ concatPairs pairs) w2
      | _ => none
    else
      match p with
      | '(' :: q2 =>
        match pairs.getLast? with
        | some lastPair =>
          bareFinish s.length q2 (sr.1 ++ ws1 ++ concatPairs pairs.dropLast) lastPair.1
        | none => none
      | _ => none

/-- WINFUNCTYPE argument/return conversion: a ctypes type passes, the
Python None denotes void, and a leftover string alias is not a ctypes
type (TypeError). -/
def cvalToArgOrRet : CVal → Except PyErr (Option CType)
  | .ct t => .ok (some t)
  | .pynone => .ok none
  | .pystr _ => .error .typeError

def argsConvert : List (Str × CVal) → Except PyErr (List (Option CType))
  | [] => .ok []
  | (_, v) :: rest =>
    match cvalToArgOrRet v with
    | .error e => .error e
    | .ok t =>
      match argsConvert rest with
      | .error e => .error e
      | .ok l => .ok (t :: l)

/-- The common tail of twin.py ctypes_parse_function after either regex
matched: the bare form (is_proto) has already stripped __stdcall from
its return-type group; the function name is the last
whitespace-separated token of the name group with its stars removed (an
empty name group raises IndexError at split()[-1]); the stars of the
return-type group count as return pointer depth; "void" as the whole
argument list means zero arguments; a typedef stores the named
WINFUNCTYPE in the type registry, a bare prototype in the prototype
table. -/
def funcFinish (e : Nat) (rtype0 fnameG fargsG : Str) (is_proto : Bool)
    (tm : TM) (cm : CM) (pm : PM) : Except PyErr (Option Nat × TM × PM) :=
  match psplitWS (pstrip fnameG) with
  | [] => .error .indexError
  | l =>
    let fname := (l.getLastD []).filter (fun c => c ≠ '*')
    let num_stars := rtype0.count '*'
    let rtypeName := pstrip (rtype0.filter (fun c => c ≠ '*'))
    match ctypes_get_or_create_type tm cm [] rtypeName num_stars none with
    | .error err => .error err
    | .ok rv =>
      match cvalToArgOrRet rv with
      | .error err => .error err
      | .ok ret =>
        match (if pstrip fargsG = "void".data then .ok []
               else ctypes_parse_fields (pstrip fargsG) tm cm ',') with
        | .error err => .error err
        | .ok fields =>
          match argsConvert fields with
          | .error err => .error err
          | .ok args =>
            let fn := CType.winfunc fname ret args
            if is_proto then .ok (some e, tm, dinsert fname fn pm)
            else .ok (some e, dinsert fname (.ct fn) tm, pm)

/-- twin.py ctypes_parse_function: try the typedef form, then the bare
form (which strips the __stdcall token from its return-type group and
sets is_proto); no match leaves everything unchanged. -/
def ctypes_parse_function (s : Str) (tm : TM) (cm : CM) (pm : PM) :
    Except PyErr (Option Nat × TM × PM) :=
  match matchFuncTypedefRe s with
  | some (e, rtypeG, fnameG, fargsG) => funcFinish e rtypeG fnameG fargsG false tm cm pm
  | none =>
    match matchFuncBareRe s with
    | some (e, rtypeG, fnameG, fargsG) =>
      funcFinish e (pstrip (subRepl "__stdcall".data rtypeG)) fnameG fargsG true tm cm pm
    | none => .ok (none, tm, pm)

/-! The preprocessor stripper: re.sub with pattern (re.VERBOSE, re.DOTALL)

  (?:(?:\#ifdef|\#else|\#endif|\#ifndef|\#include|extern|//)[^\n]*|[}]\n)|
  (?:/[*].*?[*])/

re.sub scans left to right, trying the pattern at each position and
copying the character on failure; every alternative consumes at least two
characters.  The directive alternative stops before the newline; the
closing-brace alternative consumes the brace and its newline wherever
the pair occurs; the non-greedy block comment ends at the first */ after
the opener. -/

def directiveToks : List Str :=
  [ "#ifdef".data, "#else".data, "#endif".data, "#ifndef".data,
    "#include".data, "extern".data, "//".data]

def startDirective (s : Str) : Bool :=
  directiveToks.any (fun t => isStartOf t s)

/-- Skip to just after the first */ occurrence, if any. -/
def dropBlockClose : Str → Option Str
  | [] => none
  | '*' :: '/' :: rest => some rest
  | _ :: rest => dropBlockClose rest

/-- Fuel-indexed scan of the re.sub; every step shortens the remaining
text by at least one character, so fuel = length covers every input. -/
def preFuel : Nat → Str → Str
  | 0, _ => []
  | fuel + 1, s =>
    match s with
    | [] => []
    | c :: rest =>
      if startDirective s then
        preFuel fuel (s.dropWhile (fun x => x ≠ '\n'))
      else if c = '}' && (match rest with | '\n' :: _ => true | _ => false) then
        preFuel fuel (rest.drop 1)
      else if isStartOf "/*".data s then
        match dropBlockClose (s.drop 2) with
        | some r => preFuel fuel r
        | none => c :: preFuel fuel rest
      else c :: preFuel fuel rest

/-- twin.py ctypes_preprocess. -/
def ctypes_preprocess (s : Str) : Str := preFuel s.length s

/-- One pass of the driver loop of twin.py ctypes_parse_definitions: try
typedef, struct, define, function in that order; the first match wins
and returns the match end and the updated tables. -/
def onePass (s : Str) (tm : TM) (cm : CM) (pm : PM) (pack : Option Int) :
    Except PyErr (Option (Nat × TM × CM × PM)) :=
  match ctypes_parse_typedef s tm cm with
  | .error e => .error e
  | .ok (some n, tm2) => .ok (some (n, tm2, cm, pm))
  | .ok (none, tm1) =>
    match ctypes_parse_struct s tm1 cm pack with
    | .error e => .error e
    | .ok (some n, tm2) => .ok (some (n, tm2, cm, pm))
    | .ok (none, tm2) =>
      match ctypes_parse_define s tm2 cm with
      | .error e => .error e
      | .ok (some n, cm2) => .ok (some (n, tm2, cm2, pm))
      | .ok (none, cm2) =>
        match ctypes_parse_function s tm2 cm2 pm with
        | .error e => .error e
        | .ok (some n, tm3, pm2) => .ok (some (n, tm3, cm2, pm2))
        | .ok (none, _, _) => .ok none

/-- The driver loop: restart from the top of the parser list after every
match; when a full pass matches nothing, assert that only whitespace
remains (the assertion message carries the unparsed remainder).  Every
successful match consumes at least one character, so fuel length+1
reproduces every run of the Python while-loop. -/
def parseDefsLoop (pack : Option Int) :
    Nat → Str → TM → CM → PM → Except PyErr (TM × CM × PM)
  | 0, _, _, _, _ => .error .outOfFuel
  | fuel + 1, s, tm, cm, pm =>
    match onePass s tm cm pm pack with
    | .error e => .error e
    | .ok none =>
      if pstrip s = [] then .ok (tm, cm, pm) else .error (.assertionError s)
    | .ok (some (n, tm2, cm2, pm2)) => parseDefsLoop pack fuel (s.drop n) tm2 cm2 pm2

/-- twin.py ctypes_parse_definitions. -/
def ctypes_parse_definitions (s : Str) (tm : TM) (cm : CM) (pm : PM)
    (struct_pack : Option Int) : Except PyErr (TM × CM × PM) :=
  let s2 := ctypes_preprocess s
  parseDefsLoop struct_pack (s2.length + 1) s2 tm cm pm

/-- A loaded native library: exported symbol name to entry-point address
(hasattr probes membership, getattr yields the callable). -/
abbrev Dll := List (Str × Nat)

/-- A value of the bound namespace: a type registry entry, a constant, or
a bound native function with its argument/return marshalling installed
from the prototype's WINFUNCTYPE. -/
inductive NsVal where
  | ty (v : CVal)
  | cst (v : DVal)
  | fn (addr : Nat) (argtypes : List (Option CType)) (restype : Option CType)

abbrev NS := List (Str × NsVal)

/-- twin.py ctypes_hook_dll admissibility filter: names with a space or a
leading underscore are skipped for types and constants. -/
def admissible (n : Str) : Bool :=
  ! n.contains ' ' && ! isStartOf "_".data n

/-- First library in the list exporting the symbol (the for/break scan of
ctypes_hook_dll). -/
def findDll (n : Str) : List Dll → Option Nat
  | [] => none
  | d :: rest =>
    match dlookup n d with
    | some addr => some addr
    | none => findDll n rest

def winfuncArgs : CType → List (Option CType)
  | .winfunc _ _ args => args
  | _ => []

def winfuncRet : CType → Option CType
  | .winfunc _ ret _ => ret
  | _ => none

/-- The dict c built by twin.py ctypes_hook_dll before the namedtuple is
created: admissible types, then admissible constants, then each
prototype bound from the first library that exports it (prototypes whose
symbol no library exports are skipped). -/
def ctypes_hook_dict (tm : TM) (cm : CM) (pm : PM) (dlls : List Dll) : NS :=
  let c1 := tm.foldl
    (fun acc p => if admissible p.1 then dinsert p.1 (.ty p.2) acc else acc) []
  let c2 := cm.foldl
    (fun acc p => if admissible p.1 then dinsert p.1 (.cst p.2) acc else acc) c1
  pm.foldl
    (fun acc p =>
      match findDll p.1 dlls with
      | some addr => dinsert p.1 (.fn addr (winfuncArgs p.2) (winfuncRet p.2)) acc
      | none => acc) c2

/-- Python 2 keywords (collections.namedtuple rejects keyword field
names). -/
def pyKeywords : List Str :=
  [ "and".data, "as".data, "assert".data, "break".data, "class".data,
    "continue".data, "def".data, "del".data, "elif".data, "else".data,
    "except".data, "exec".data, "finally".data, "for".data, "from".data,
    "global".data, "if".data, "import".data, "in".data, "is".data,
    "lambda".data, "not".data, "or".data, "pass".data, "print".data,
    "raise".data, "return".data, "try".data, "while".data, "with".data,
    "yield".data]

/-- collections.namedtuple field-name validation (Python 2): nonempty,
alphanumeric or underscore characters, not starting with a digit or an
underscore, not a keyword. -/
def validFieldName (n : Str) : Bool :=
  n ≠ [] &&
  n.all (fun c => c.isAlpha || c.isDigit || c = '_') &&
  ! (match n with | c :: _ => c.isDigit | [] => false) &&
  ! isStartOf "_".data n &&
  ! pyKeywords.contains n

/-- twin.py ctypes_hook_dll: build the dict and create the namedtuple
namespace from it (namedtuple creation raises ValueError on an invalid
field name; the dict keys are the namedtuple fields). -/
def ctypes_hook_dll (tm : TM) (cm : CM) (pm : PM) (dlls : List Dll) :
    Except PyErr NS :=
  let c := ctypes_hook_dict tm cm pm dlls
  if c.all (fun p => validFieldName p.1) then .ok c
  else .error (.valueError "namedtuple field".data)

/-- The hooking loop of twin.py CTypesHelper.__call__ (lines 1178-1189):
self.c starts as None and each iteration over the supplied libraries
overwrites it with ctypes_hook_dll of the tables and that single
library, so only the last library's bindings survive. -/
def ctypes_helper_hook (tm : TM) (cm : CM) (pm : PM) (dlls : List Dll) :
    Option (Except PyErr NS) :=
  dlls.foldl (fun _ dll => some (ctypes_hook_dll tm cm pm [dll])) none

/-! Theorems about the claims. -/

def exOk? : Except PyErr α → Option α
  | .ok a => some a
  | .error _ => none

/-- The C1 test declaration. -/
def c1_input : Str := "typedef struct \x7b int a; \x7d Foo, *PFoo, **PPFoo;".data

/-- The one canonical struct body the C1 parse creates: class name Foo
(the zero-star candidate sorts first), field list exactly a : int32
(ctypes.c_int32 is ctypes.c_int), no packing. -/
def c1_fooStruct : CType := CType.struct "Foo".data [( "a".data, c_int32)] none

/-- Claim C1: parsing typedef struct { int a; } Foo, *PFoo, **PPFoo;
succeeds and leaves the registry with Foo bound to the bare struct whose
field list is exactly [("a", int32)], PFoo bound to a depth-1 pointer to
that struct and PPFoo to a depth-2 pointer to it, all three referring to
the same struct body. -/
theorem c1_struct_alias_fanout :
    (exOk? (ctypes_parse_struct c1_input ctypes_default_type_mapping [] none)).map
      (fun r => (r.1.isSome, dlookup "Foo".data r.2, dlookup "PFoo".data r.2,
                 dlookup "PPFoo".data r.2)) =
    some (true, some (.ct c1_fooStruct), some (.ct (.pointer c1_fooStruct)),
          some (.ct (.pointer (.pointer c1_fooStruct)))) := rfl

/-- The constant table after #define A 5. -/
def c2_cm1 : CM :=
  match ctypes_parse_define "#define A 5".data [] [] with
  | .ok (_, cm) => cm
  | .error _ => []

/-- The constant table after #define A 5 and #define B A. -/
def c2_cm2 : CM :=
  match ctypes_parse_define "#define B A".data [] c2_cm1 with
  | .ok (_, cm) => cm
  | .error _ => []

/-- The constant table after #define A 5, #define B A, #define A 7. -/
def c2_cm3 : CM :=
  match ctypes_parse_define "#define A 7".data [] c2_cm2 with
  | .ok (_, cm) => cm
  | .error _ => []

/-- Claim C2: macro aliases resolve exactly once, at definition time:
after #define A 5, #define B A, #define A 7 the constant table maps B to
5 and A to 7; the later redefinition of A does not update B. -/
theorem c2_constant_aliasing :
    dlookup "A".data c2_cm1 = some (.i 5) ∧
    dlookup "B".data c2_cm2 = some (.i 5) ∧
    dlookup "B".data c2_cm3 = some (.i 5) ∧
    dlookup "A".data c2_cm3 = some (.i 7) :=
  ⟨rfl, rfl, rfl, rfl⟩

/-- Claim C7 (code bug): the struct parser crashes with AttributeError on
any struct declaration without a trailing alias list, because the absent
optional tnames group is None and the source calls None.split(",").  The
second input is the parser docstring's own first supported example. -/
theorem c7_struct_no_alias_crash :
    ctypes_parse_struct "struct MyStruct \x7b int a; \x7d;".data
      ctypes_default_type_mapping [] none = .error .attributeError ∧
    ctypes_parse_struct
      "typedef struct MyStruct \x7b int myField; int field1, field2; \x7d;".data
      ctypes_default_type_mapping [] none = .error .attributeError :=
  ⟨rfl, rfl⟩

/-- A one-entry prototype table for C6. -/
def c6_pm : PM := [( "Foo".data, .winfunc "Foo".data none [])]

def c6_d1 : Dll := [( "Foo".data, 1)]

def c6_d2 : Dll := [( "Bar".data, 2)]

def c6_d2x : Dll := [( "Foo".data, 2)]

/-- Claim C6 (code bug): ctypes_hook_dll itself binds Foo from the first
library of the list (address 1), but the hooking loop of
CTypesHelper.__call__ rebinds per library and keeps only the last
result: with libraries [d1, d2] where only d1 exports Foo the namespace
it produces lacks Foo entirely, and when both export Foo it binds the
last library's symbol (address 2), not the first's. -/
theorem c6_helper_last_dll_only :
    ctypes_hook_dll [] [] c6_pm [c6_d1, c6_d2] = .ok [( "Foo".data, .fn 1 [] none)] ∧
    ctypes_helper_hook [] [] c6_pm [c6_d1, c6_d2] = some (.ok []) ∧
    ctypes_helper_hook [] [] c6_pm [c6_d1, c6_d2x] =
      some (.ok [( "Foo".data, .fn 2 [] none)]) :=
  ⟨rfl, rfl, rfl⟩

/-- A prototype table whose one function name collides with the seeded
type name int. -/
def c5_pm : PM := [( "int".data, .winfunc "int".data none [])]

/-- Claim C5 counterexample: a prototype named int that no supplied
library exports (the single library exports nothing) does not leave the
namespace lacking that name: the name is still present, bound to the
seeded type entry, so a presence check returns true. -/
theorem c5_collision_counterexample :
    dlookup "int".data c5_pm = some (.winfunc "int".data none []) ∧
    findDll "int".data [[]] = none ∧
    dlookup "int".data (ctypes_hook_dict ctypes_default_type_mapping [] c5_pm [[]]) =
      some (.ty (.ct .c_int)) :=
  ⟨rfl, rfl, rfl⟩

/-- The C8 counterexample declaration: a typedef whose declarator name is
the seeded primitive name char. -/
def c8_input : Str := "typedef int char;".data

def c8_tm : TM :=
  match ctypes_parse_typedef c8_input ctypes_default_type_mapping [] with
  | .ok (_, tm) => tm
  | .error _ => []

/-- Claim C8 counterexample: the seeded primitive name char starts bound
to c_char, and parsing typedef int char; rebinds it to c_int (last write
wins), so a later declaration can rebind a seeded primitive name. -/
theorem c8_rebind_counterexample :
    dlookup "char".data ctypes_default_type_mapping = some (.ct .c_char) ∧
    dlookup "char".data c8_tm = some (.ct .c_int) ∧
    ¬ (CType.c_int = CType.c_char) :=
  ⟨rfl, rfl, fun h => CType.noConfusion h⟩

/-- Claim C9 counterexample: the line a} is not a line consisting solely
of a closing brace and contains no directive, extern, comment, or
listed construct, yet the stripper deletes the brace and the newline; so
the output is not the input with only the listed constructs removed. -/
theorem c9_brace_counterexample :
    ctypes_preprocess "a\x7d\nb".data = "ab".data ∧
    ¬ ("ab".data = ("a\x7d\nb".data : Str)) :=
  ⟨rfl, by decide⟩

theorem iterPointer_pointer (k : Nat) (t : CType) :
    iterPointer k (.pointer t) = iterPointer (k + 1) t := by
  induction k with
  | zero => rfl
  | succ n ih => simp [iterPointer, ih]

theorem stripPointer_iterPointer (n : Nat) (t : CType) :
    stripPointer n (iterPointer n t) = some t := by
  induction n with
  | zero => rfl
  | succ m ih => simpa [iterPointer, stripPointer] using ih

/-- Evaluation of ctypes_get_or_create_type with no array size when the
base name is registered: the result is the resolved value, wrapped for a
positive star count by the innermost special-case and then
num_stars - 1 plain POINTER layers. -/
theorem get_or_create_eval (tm : TM) (cm : CM) (q b : Str) (m : Nat) (v : CVal)
    (hv : dlookup (if isSubstr "unsigned".data q then "unsigned ".data ++ b else b)
            tm = some v) :
    ctypes_get_or_create_type tm cm q b m none =
      (if m > 0 then
        match innermostPointer (ctypes_map_type tm
            (if isSubstr "unsigned".data q then "unsigned ".data ++ b else b)) with
        | .error e => .error e
        | .ok inner => .ok (.ct (iterPointer (m - 1) inner))
      else .ok (ctypes_map_type tm
            (if isSubstr "unsigned".data q then "unsigned ".data ++ b else b))) := by
  unfold ctypes_get_or_create_type
  simp only [hv]
  by_cases hm : m > 0
  · simp only [hm, if_true]
    cases innermostPointer (ctypes_map_type tm
        (if isSubstr "unsigned".data q then "unsigned ".data ++ b else b)) <;> rfl
  · simp only [hm, if_false]

/-- Claim C3: for a star count n of at least 1, a base resolving to the
8-bit character primitive yields the native string pointer wrapped in
n - 1 plain pointers, likewise the wide character primitive yields the
wide string pointer, a resolved void yields the opaque pointer, and any
other resolved type gets exactly n plain Pointer layers, so that
stripping those n layers yields the same layout as deriving with star
count 0. -/
theorem c3_pointer_derivation (tm : TM) (cm : CM) (q b b1 : Str) (n : Nat)
    (hb1 : b1 = if isSubstr "unsigned".data q then "unsigned ".data ++ b else b)
    (hn : 1 ≤ n) (hmem : (dlookup b1 tm).isSome) :
    (ctypes_map_type tm b1 = .ct .c_char →
      ctypes_get_or_create_type tm cm q b n none =
        .ok (.ct (iterPointer (n - 1) .c_char_p))) ∧
    (ctypes_map_type tm b1 = .ct .c_wchar →
      ctypes_get_or_create_type tm cm q b n none =
        .ok (.ct (iterPointer (n - 1) .c_wchar_p))) ∧
    (ctypes_map_type tm b1 = .pynone →
      ctypes_get_or_create_type tm cm q b n none =
        .ok (.ct (iterPointer (n - 1) .c_void_p))) ∧
    (∀ t : CType, ctypes_map_type tm b1 = .ct t → t ≠ .c_char → t ≠ .c_wchar →
      ctypes_get_or_create_type tm cm q b n none = .ok (.ct (iterPointer n t)) ∧
      ctypes_get_or_create_type tm cm q b 0 none = .ok (.ct t) ∧
      stripPointer n (iterPointer n t) = some t) := by
  subst hb1
  obtain ⟨v, hv⟩ := Option.isSome_iff_exists.mp hmem
  have hpos : n > 0 := hn
  refine ⟨?_, ?_, ?_, ?_⟩
  · intro hres
    rw [get_or_create_eval tm cm q b n v hv, if_pos hpos, hres]
    rfl
  · intro hres
    rw [get_or_create_eval tm cm q b n v hv, if_pos hpos, hres]
    rfl
  · intro hres
    rw [get_or_create_eval tm cm q b n v hv, if_pos hpos, hres]
    rfl
  · intro t hres h1 h2
    have hinner : innermostPointer (.ct t) = .ok (.pointer t) := by
      cases t <;> simp_all [innermostPointer]
    refine ⟨?_, ?_, stripPointer_iterPointer n t⟩
    · rw [get_or_create_eval tm cm q b n v hv, if_pos hpos, hres, hinner]
      show Except.ok (CVal.ct (iterPointer (n - 1) (.pointer t))) =
        Except.ok (.ct (iterPointer n t))
      rw [iterPointer_pointer, Nat.sub_add_cancel hn]
    · rw [get_or_create_eval tm cm q b 0 v hv, if_neg (by omega), hres]

/-- Witness for C3 at the seeded base int with star count 2. -/
theorem c3_pointer_derivation_witness :
    ctypes_get_or_create_type ctypes_default_type_mapping [] [] "int".data 2 none =
      .ok (.ct (.pointer (.pointer .c_int))) ∧
    stripPointer 2 (iterPointer 2 .c_int) = some .c_int :=
  have h := (c3_pointer_derivation ctypes_default_type_mapping [] [] "int".data
      "int".data 2 rfl (by decide) (by decide)).2.2.2 .c_int rfl
      (fun h => CType.noConfusion h) (fun h => CType.noConfusion h)
  ⟨h.1, h.2.2⟩

/-- A typedef no-match leaves the type registry unchanged. -/
theorem parse_typedef_none_eq (s : Str) (tm : TM) (cm : CM) (tm2 : TM)
    (he : ctypes_parse_typedef s tm cm = .ok (none, tm2)) : tm2 = tm := by
  unfold ctypes_parse_typedef at he
  cases hm : matchTypedefRe s with
  | none => rw [hm] at he; simp_all
  | some r =>
    obtain ⟨e, grp⟩ := r
    rw [hm] at he
    cases hf : ctypes_parse_fields (pstrip grp) tm cm ';' with
    | error err => simp [hf] at he
    | ok flds => simp [hf] at he

/-- A struct no-match leaves the type registry unchanged. -/
theorem parse_struct_none_eq (s : Str) (tm : TM) (cm : CM) (pack : Option Int)
    (tm2 : TM) (he : ctypes_parse_struct s tm cm pack = .ok (none, tm2)) :
    tm2 = tm := by
  unfold ctypes_parse_struct at he
  cases hm : matchStructRe s with
  | none => rw [hm] at he; simp_all
  | some r =>
    obtain ⟨e, sname, sbody, tnames⟩ := r
    rw [hm] at he
    cases tnames with
    | none => simp at he
    | some tn =>
      cases hf : ctypes_parse_fields sbody tm cm ';' with
      | error err => simp [hf] at he
      | ok flds =>
        cases hc : structFieldsConvert flds with
        | error err => simp [hf, hc] at he
        | ok cf => simp [hf, hc] at he

/-- A define no-match leaves the constant table unchanged. -/
theorem parse_define_none_eq (s : Str) (tm : TM) (cm : CM) (cm2 : CM)
    (he : ctypes_parse_define s tm cm = .ok (none, cm2)) : cm2 = cm := by
  unfold ctypes_parse_define at he
  cases hm : matchDefineRe s with
  | none => rw [hm] at he; simp_all
  | some r =>
    obtain ⟨e, dname, dvalueRaw⟩ := r
    rw [hm] at he
    simp at he

/-- A successful funcFinish always reports a match offset. -/
theorem funcFinish_not_none (e : Nat) (rtype0 fnameG fargsG : Str)
    (is_proto : Bool) (tm : TM) (cm : CM) (pm : PM) (tm2 : TM) (pm2 : PM)
    (he : funcFinish e rtype0 fnameG fargsG is_proto tm cm pm =
      .ok (none, tm2, pm2)) : False := by
  unfold funcFinish at he
  cases hsp : psplitWS (pstrip fnameG) with
  | nil => simp only [hsp] at he; exact absurd he (by simp)
  | cons a l2 =>
    simp only [hsp] at he
    cases hg : ctypes_get_or_create_type tm cm []
        (pstrip (rtype0.filter (fun c => c ≠ '*'))) (rtype0.count '*') none with
    | error err => simp only [hg] at he; exact absurd he (by simp)
    | ok rv =>
      simp only [hg] at he
      cases hr : cvalToArgOrRet rv with
      | error err => simp only [hr] at he; exact absurd he (by simp)
      | ok ret =>
        simp only [hr] at he
        cases hf : (if pstrip fargsG = "void".data
            then (Except.ok [] : Except PyErr (List (Str × CVal)))
            else ctypes_parse_fields (pstrip fargsG) tm cm ',') with
        | error err => simp only [hf] at he; exact absurd he (by simp)
        | ok fields =>
          simp only [hf] at he
          cases ha : argsConvert fields with
          | error err => simp only [ha] at he; exact absurd he (by simp)
          | ok args =>
            simp only [ha] at he
            cases is_proto <;> simp at he

/-- A function no-match leaves the type registry and the prototype table
unchanged. -/
theorem parse_function_none_eq (s : Str) (tm : TM) (cm : CM) (pm : PM)
    (tm2 : TM) (pm2 : PM)
    (he : ctypes_parse_function s tm cm pm = .ok (none, tm2, pm2)) :
    tm2 = tm ∧ pm2 = pm := by
  unfold ctypes_parse_function at he
  cases hm : matchFuncTypedefRe s with
  | some r =>
    obtain ⟨e, rG, fG, aG⟩ := r
    rw [hm] at he
    exact absurd he (fun h => funcFinish_not_none _ _ _ _ _ _ _ _ _ _ h)
  | none =>
    rw [hm] at he
    cases hb : matchFuncBareRe s with
    | some r =>
      obtain ⟨e, rG, fG, aG⟩ := r
      rw [hb] at he
      exact absurd he (fun h => funcFinish_not_none _ _ _ _ _ _ _ _ _ _ h)
    | none => rw [hb] at he; simp_all

/-- Claim C10: whenever a sub-parser returns no match, it has mutated
none of the tables, leaving the state exactly as it was for the next
parser in the priority order. -/
theorem c10_no_match_frame (s : Str) (tm : TM) (cm : CM) (pm : PM)
    (pack : Option Int) :
    (∀ tm2, ctypes_parse_typedef s tm cm = .ok (none, tm2) → tm2 = tm) ∧
    (∀ tm2, ctypes_parse_struct s tm cm pack = .ok (none, tm2) → tm2 = tm) ∧
    (∀ cm2, ctypes_parse_define s tm cm = .ok (none, cm2) → cm2 = cm) ∧
    (∀ tm2 pm2, ctypes_parse_function s tm cm pm = .ok (none, tm2, pm2) →
      tm2 = tm ∧ pm2 = pm) :=
  ⟨fun tm2 => parse_typedef_none_eq s tm cm tm2,
   fun tm2 => parse_struct_none_eq s tm cm pack tm2,
   fun cm2 => parse_define_none_eq s tm cm cm2,
   fun tm2 pm2 => parse_function_none_eq s tm cm pm tm2 pm2⟩

/-- Witness for C10: a union declaration matches no parser and the
default registry passes through unchanged. -/
theorem c10_no_match_frame_witness :
    ctypes_parse_typedef "union U \x7b int a; \x7d;".data
      ctypes_default_type_mapping [] = .ok (none, ctypes_default_type_mapping) ∧
    ctypes_default_type_mapping = ctypes_default_type_mapping :=
  ⟨rfl,
   (c10_no_match_frame "union U \x7b int a; \x7d;".data
      ctypes_default_type_mapping [] [] none).1 ctypes_default_type_mapping rfl⟩

/-- Claim C4: the driver tries the sub-parsers in the fixed order
typedef, struct, define, function (conjuncts 1-4), restarts from the top
of the list after every successful match (conjunct 7), succeeds when a
full pass matches nothing and only whitespace remains (conjunct 6), and
otherwise fails with a fatal error carrying the unparsed remainder
(conjunct 5), producing no tables; the entry point runs this loop on the
preprocessed text (conjunct 8). -/
theorem c4_driver_fatal_on_remainder (s : Str) (tm : TM) (cm : CM) (pm : PM)
    (pack : Option Int) :
    (∀ n tm2, ctypes_parse_typedef s tm cm = .ok (some n, tm2) →
      onePass s tm cm pm pack = .ok (some (n, tm2, cm, pm))) ∧
    (∀ tm1 n tm2, ctypes_parse_typedef s tm cm = .ok (none, tm1) →
      ctypes_parse_struct s tm1 cm pack = .ok (some n, tm2) →
      onePass s tm cm pm pack = .ok (some (n, tm2, cm, pm))) ∧
    (∀ tm1 tm2 n cm2, ctypes_parse_typedef s tm cm = .ok (none, tm1) →
      ctypes_parse_struct s tm1 cm pack = .ok (none, tm2) →
      ctypes_parse_define s tm2 cm = .ok (some n, cm2) →
      onePass s tm cm pm pack = .ok (some (n, tm2, cm2, pm))) ∧
    (∀ tm1 tm2 cm2 n tm3 pm2, ctypes_parse_typedef s tm cm = .ok (none, tm1) →
      ctypes_parse_struct s tm1 cm pack = .ok (none, tm2) →
      ctypes_parse_define s tm2 cm = .ok (none, cm2) →
      ctypes_parse_function s tm2 cm2 pm = .ok (some n, tm3, pm2) →
      onePass s tm cm pm pack = .ok (some (n, tm3, cm2, pm2))) ∧
    (∀ fuel, onePass s tm cm pm pack = .ok none → pstrip s ≠ [] →
      parseDefsLoop pack (fuel + 1) s tm cm pm = .error (.assertionError s)) ∧
    (∀ fuel, onePass s tm cm pm pack = .ok none → pstrip s = [] →
      parseDefsLoop pack (fuel + 1) s tm cm pm = .ok (tm, cm, pm)) ∧
    (∀ fuel n tm2 cm2 pm2,
      onePass s tm cm pm pack = .ok (some (n, tm2, cm2, pm2)) →
      parseDefsLoop pack (fuel + 1) s tm cm pm =
        parseDefsLoop pack fuel (s.drop n) tm2 cm2 pm2) ∧
    (ctypes_parse_definitions s tm cm pm pack =
      parseDefsLoop pack ((ctypes_preprocess s).length + 1)
        (ctypes_preprocess s) tm cm pm) := by
  refine ⟨?_, ?_, ?_, ?_, ?_, ?_, ?_, rfl⟩
  · intro n tm2 h1
    unfold onePass
    simp only [h1]
  · intro tm1 n tm2 h1 h2
    unfold onePass
    simp only [h1, h2]
  · intro tm1 tm2 n cm2 h1 h2 h3
    unfold onePass
    simp only [h1, h2, h3]
  · intro tm1 tm2 cm2 n tm3 pm2 h1 h2 h3 h4
    unfold onePass
    simp only [h1, h2, h3, h4]
  · intro fuel h1 h2
    simp only [parseDefsLoop, h1]
    simp [h2]
  · intro fuel h1 h2
    simp only [parseDefsLoop, h1]
    simp [h2]
  · intro fuel n tm2 cm2 pm2 h1
    simp only [parseDefsLoop, h1]

/-- The C4 witness input: an unsupported construct (a union). -/
def c4_bad : Str := "union U \x7b int a; \x7d;".data

/-- Witness for C4: the union declaration matches no parser and the
driver fails with the assertion error carrying the whole remainder. -/
theorem c4_driver_fatal_on_remainder_witness :
    onePass c4_bad ctypes_default_type_mapping [] [] none = .ok none ∧
    parseDefsLoop none 5 c4_bad ctypes_default_type_mapping [] [] =
      .error (.assertionError c4_bad) :=
  ⟨rfl,
   (c4_driver_fatal_on_remainder c4_bad ctypes_default_type_mapping [] []
      none).2.2.2.2.1 4 rfl (by decide)⟩

theorem dlookup_dinsert (k k2 : Str) (v : α) (t : List (Str × α)) :
    dlookup k (dinsert k2 v t) = if k2 = k then some v else dlookup k t := by
  induction t with
  | nil => simp [dinsert, dlookup]
  | cons p rest ih =>
    obtain ⟨a, b⟩ := p
    by_cases h1 : a = k2
    · subst h1
      simp only [dinsert, if_pos rfl]
      by_cases h2 : a = k
      · subst h2
        simp [dlookup]
      · simp [dlookup, h2]
    · simp only [dinsert, if_neg h1]
      by_cases h2 : a = k
      · subst h2
        have hk : ¬ (k2 = a) := fun hh => h1 hh.symm
        simp [dlookup, hk]
      · simp [dlookup, h2, ih]

theorem dinsert_isSome (k k2 : Str) (v : α) (t : List (Str × α))
    (h : (dlookup k t).isSome) : (dlookup k (dinsert k2 v t)).isSome := by
  rw [dlookup_dinsert]
  split_ifs <;> simp_all

theorem foldl_dinsert_isSome (pairs : List (Str × CVal)) (k : Str) :
    ∀ t : TM, (dlookup k t).isSome →
      (dlookup k (pairs.foldl (fun t p => dinsert p.1 p.2 t) t)).isSome := by
  induction pairs with
  | nil => intro t h; exact h
  | cons p rest ih =>
    intro t h
    exact ih (dinsert p.1 p.2 t) (dinsert_isSome k p.1 p.2 t h)

theorem structFoldGo_isSome (fields : List (Str × CType)) (pack : Option Int)
    (names : List Str) :
    ∀ (base? : Option CType) (t : TM) (k : Str), (dlookup k t).isSome →
      (dlookup k (structFoldGo fields pack names base? t)).isSome := by
  induction names with
  | nil => intro base? t k h; exact h
  | cons nm rest ih =>
    intro base? t k h
    exact ih _ _ k (dinsert_isSome k _ _ t h)

theorem parse_typedef_mono (s : Str) (tm : TM) (cm : CM)
    (p : Option Nat × TM) (k : Str)
    (he : ctypes_parse_typedef s tm cm = .ok p)
    (h : (dlookup k tm).isSome) : (dlookup k p.2).isSome := by
  unfold ctypes_parse_typedef at he
  cases hm : matchTypedefRe s with
  | none =>
    rw [hm] at he
    injection he with h2
    rw [← h2]
    exact h
  | some r =>
    obtain ⟨e, grp⟩ := r
    simp only [hm] at he
    cases hf : ctypes_parse_fields (pstrip grp) tm cm ';' with
    | error err => simp [hf] at he
    | ok flds =>
      simp only [hf] at he
      injection he with h2
      rw [← h2]
      exact foldl_dinsert_isSome flds k tm h

theorem parse_struct_mono (s : Str) (tm : TM) (cm : CM) (pack : Option Int)
    (p : Option Nat × TM) (k : Str)
    (he : ctypes_parse_struct s tm cm pack = .ok p)
    (h : (dlookup k tm).isSome) : (dlookup k p.2).isSome := by
  unfold ctypes_parse_struct at he
  cases hm : matchStructRe s with
  | none =>
    rw [hm] at he
    injection he with h2
    rw [← h2]
    exact h
  | some r =>
    obtain ⟨e, sname, sbody, tnames⟩ := r
    simp only [hm] at he
    cases tnames with
    | none => simp at he
    | some tn =>
      cases hf : ctypes_parse_fields sbody tm cm ';' with
      | error err => simp [hf] at he
      | ok flds =>
        cases hc : structFieldsConvert flds with
        | error err => simp [hf, hc] at he
        | ok cf =>
          simp only [hf, hc] at he
          injection he with h2
          rw [← h2]
          exact structFoldGo_isSome cf pack _ none tm k h

theorem funcFinish_mono (e : Nat) (rtype0 fnameG fargsG : Str)
    (is_proto : Bool) (tm : TM) (cm : CM) (pm : PM)
    (p : Option Nat × TM × PM) (k : Str)
    (he : funcFinish e rtype0 fnameG fargsG is_proto tm cm pm = .ok p)
    (h : (dlookup k tm).isSome) : (dlookup k p.2.1).isSome := by
  unfold funcFinish at he
  cases hsp : psplitWS (pstrip fnameG) with
  | nil => simp only [hsp] at he; exact absurd he (by simp)
  | cons a l2 =>
    simp only [hsp] at he
    cases hg : ctypes_get_or_create_type tm cm []
        (pstrip (rtype0.filter (fun c => c ≠ '*'))) (rtype0.count '*') none with
    | error err => simp only [hg] at he; exact absurd he (by simp)
    | ok rv =>
      simp only [hg] at he
      cases hr : cvalToArgOrRet rv with
      | error err => simp only [hr] at he; exact absurd he (by simp)
      | ok ret =>
        simp only [hr] at he
        cases hf : (if pstrip fargsG = "void".data
            then (Except.ok [] : Except PyErr (List (Str × CVal)))
            else ctypes_parse_fields (pstrip fargsG) tm cm ',') with
        | error err => simp only [hf] at he; exact absurd he (by simp)
        | ok fields =>
          simp only [hf] at he
          cases ha : argsConvert fields with
          | error err => simp only [ha] at he; exact absurd he (by simp)
          | ok args =>
            simp only [ha] at he
            cases is_proto with
            | true =>
              simp only [if_true] at he
              injection he with h2
              rw [← h2]
              exact h
            | false =>
              simp only [Bool.false_eq_true, if_false] at he
              injection he with h2
              rw [← h2]
              exact dinsert_isSome k _ _ tm h

theorem parse_function_mono (s : Str) (tm : TM) (cm : CM) (pm : PM)
    (p : Option Nat × TM × PM) (k : Str)
    (he : ctypes_parse_function s tm cm pm = .ok p)
    (h : (dlookup k tm).isSome) : (dlookup k p.2.1).isSome := by
  unfold ctypes_parse_function at he
  cases hm : matchFuncTypedefRe s with
  | some r =>
    obtain ⟨e, rG, fG, aG⟩ := r
    simp only [hm] at he
    exact funcFinish_mono _ _ _ _ _ _ _ _ _ k he h
  | none =>
    rw [hm] at he
    cases hb : matchFuncBareRe s with
    | some r =>
      obtain ⟨e, rG, fG, aG⟩ := r
      simp only [hb] at he
      exact funcFinish_mono _ _ _ _ _ _ _ _ _ k he h
    | none =>
      rw [hb] at he
      injection he with h2
      rw [← h2]
      exact h

theorem onePass_mono (s : Str) (tm : TM) (cm : CM) (pm : PM)
    (pack : Option Int) (n : Nat) (tm2 : TM) (cm2 : CM) (pm2 : PM) (k : Str)
    (he : onePass s tm cm pm pack = .ok (some (n, tm2, cm2, pm2)))
    (h : (dlookup k tm).isSome) : (dlookup k tm2).isSome := by
  unfold onePass at he
  cases h1 : ctypes_parse_typedef s tm cm with
  | error e => simp only [h1] at he; exact absurd he (by simp)
  | ok p1 =>
    obtain ⟨o1, tmA⟩ := p1
    simp only [h1] at he
    have hA : (dlookup k tmA).isSome := parse_typedef_mono s tm cm (o1, tmA) k h1 h
    cases o1 with
    | some nn =>
      simp only [Except.ok.injEq, Option.some.injEq, Prod.mk.injEq] at he
      obtain ⟨-, h4, -⟩ := he
      exact h4 ▸ hA
    | none =>
      cases h2 : ctypes_parse_struct s tmA cm pack with
      | error e => simp only [h2] at he; exact absurd he (by simp)
      | ok p2 =>
        obtain ⟨o2, tmB⟩ := p2
        simp only [h2] at he
        have hB : (dlookup k tmB).isSome :=
          parse_struct_mono s tmA cm pack (o2, tmB) k h2 hA
        cases o2 with
        | some nn =>
          simp only [Except.ok.injEq, Option.some.injEq, Prod.mk.injEq] at he
          obtain ⟨-, h4, -⟩ := he
          exact h4 ▸ hB
        | none =>
          cases h3 : ctypes_parse_define s tmB cm with
          | error e => simp only [h3] at he; exact absurd he (by simp)
          | ok p3 =>
            obtain ⟨o3, cmC⟩ := p3
            simp only [h3] at he
            cases o3 with
            | some nn =>
              simp only [Except.ok.injEq, Option.some.injEq, Prod.mk.injEq] at he
              obtain ⟨-, h4, -⟩ := he
              exact h4 ▸ hB
            | none =>
              cases h4 : ctypes_parse_function s tmB cmC pm with
              | error e => simp only [h4] at he; exact absurd he (by simp)
              | ok p4 =>
                obtain ⟨o4, tmD, pmD⟩ := p4
                simp only [h4] at he
                have hD : (dlookup k tmD).isSome :=
                  parse_function_mono s tmB cmC pm (o4, tmD, pmD) k h4 hB
                cases o4 with
                | some nn =>
                  simp only [Except.ok.injEq, Option.some.injEq, Prod.mk.injEq] at he
                  obtain ⟨-, h5, -⟩ := he
                  exact h5 ▸ hD
                | none => simp at he

theorem parseDefsLoop_mono (pack : Option Int) (k : Str) :
    ∀ (fuel : Nat) (s : Str) (tm : TM) (cm : CM) (pm : PM)
      (tm2 : TM) (cm2 : CM) (pm2 : PM),
      parseDefsLoop pack fuel s tm cm pm = .ok (tm2, cm2, pm2) →
      (dlookup k tm).isSome → (dlookup k tm2).isSome := by
  intro fuel
  induction fuel with
  | zero => intro s tm cm pm tm2 cm2 pm2 he; exact absurd he (by simp [parseDefsLoop])
  | succ f ih =>
    intro s tm cm pm tm2 cm2 pm2 he h
    rw [parseDefsLoop] at he
    cases hp : onePass s tm cm pm pack with
    | error e => rw [hp] at he; exact absurd he (by simp)
    | ok o =>
      cases o with
      | none =>
        rw [hp] at he
        by_cases hw : pstrip s = []
        · simp only [hw, if_true] at he
          simp only [Except.ok.injEq, Prod.mk.injEq] at he
          obtain ⟨h4, -⟩ := he
          exact h4 ▸ h
        · simp [hw] at he
      | some r =>
        obtain ⟨n, tmA, cmA, pmA⟩ := r
        rw [hp] at he
        exact ih _ tmA cmA pmA tm2 cm2 pm2 he (onePass_mono s tm cm pm pack n tmA cmA pmA k hp h)

/-- Claim C8, amended: no declaration ever removes a registered name from
the Type Registry: any name (in particular a seeded primitive name)
bound before a whole parse is still bound after it, though a later
declaration may rebind it to a different layout (last write wins, see
the counterexample). -/
theorem c8_registry_keys_monotone (s : Str) (tm : TM) (cm : CM) (pm : PM)
    (pack : Option Int) (tm2 : TM) (cm2 : CM) (pm2 : PM) (k : Str)
    (he : ctypes_parse_definitions s tm cm pm pack = .ok (tm2, cm2, pm2))
    (h : (dlookup k tm).isSome) : (dlookup k tm2).isSome := by
  unfold ctypes_parse_definitions at he
  exact parseDefsLoop_mono pack k _ _ tm cm pm tm2 cm2 pm2 he h

/-- Witness for the amended C8 at a concrete parse rebinding nothing:
char is still registered after the typedef of a fresh name. -/
theorem c8_registry_keys_monotone_witness :
    ctypes_parse_definitions "typedef int myint;\n".data
      ctypes_default_type_mapping [] [] none =
      .ok (dinsert "myint".data (.ct .c_int) ctypes_default_type_mapping, [], []) ∧
    (dlookup "char".data
      (dinsert "myint".data (.ct .c_int) ctypes_default_type_mapping)).isSome :=
  ⟨rfl,
   c8_registry_keys_monotone "typedef int myint;\n".data
     ctypes_default_type_mapping [] [] none _ [] [] "char".data rfl (by decide)⟩

theorem dlookup_dinsert_ne (k k2 : Str) (v : α) (t : List (Str × α))
    (h : ¬ (k2 = k)) : dlookup k (dinsert k2 v t) = dlookup k t := by
  rw [dlookup_dinsert, if_neg h]

theorem dlookup_none_forall (k : Str) (t : List (Str × α))
    (h : dlookup k t = none) : ∀ p ∈ t, ¬ (p.1 = k) := by
  induction t with
  | nil => intro p hp; cases hp
  | cons q rest ih =>
    intro p hp
    obtain ⟨a, b⟩ := q
    by_cases ha : a = k
    · simp [dlookup, ha] at h
    · simp only [dlookup, if_neg ha] at h
      cases hp with
      | head => exact ha
      | tail _ hmem => exact ih h p hmem

theorem foldl_preserve_none {β : Type} (k : Str) (step : NS → (Str × β) → NS)
    (hstep : ∀ acc p, ¬ (p.1 = k) → dlookup k (step acc p) = dlookup k acc) :
    ∀ (l : List (Str × β)) (acc : NS), (∀ p ∈ l, ¬ (p.1 = k)) →
      dlookup k acc = none → dlookup k (l.foldl step acc) = none := by
  intro l
  induction l with
  | nil => intro acc _ h; exact h
  | cons p rest ih =>
    intro acc hne h
    simp only [List.foldl_cons]
    exact ih _ (fun q hq => hne q (List.mem_cons_of_mem p hq))
      ((hstep acc p (hne p (List.mem_cons_self p rest))).trans h)

theorem findDll_none (k : Str) :
    ∀ dlls : List Dll, (∀ d ∈ dlls, dlookup k d = none) → findDll k dlls = none := by
  intro dlls
  induction dlls with
  | nil => intro _; rfl
  | cons d rest ih =>
    intro h
    have hd := h d (List.mem_cons_self d rest)
    simp only [findDll, hd]
    exact ih (fun q hq => h q (List.mem_cons_of_mem d hq))

theorem fnFold_none (k : Str) (dlls : List Dll) (hd : findDll k dlls = none) :
    ∀ (l : PM) (acc : NS), dlookup k acc = none →
      dlookup k (l.foldl (fun acc p =>
        match findDll p.1 dlls with
        | some addr => dinsert p.1 (NsVal.fn addr (winfuncArgs p.2) (winfuncRet p.2)) acc
        | none => acc) acc) = none := by
  intro l
  induction l with
  | nil => intro acc h; exact h
  | cons p rest ih =>
    intro acc h
    simp only [List.foldl_cons]
    apply ih
    by_cases hk : p.1 = k
    · rw [hk, hd]
      exact h
    · cases hf : findDll p.1 dlls with
      | none => exact h
      | some addr =>
        show dlookup k
          (dinsert p.1 (NsVal.fn addr (winfuncArgs p.2) (winfuncRet p.2)) acc) = none
        rw [dlookup_dinsert_ne k p.1 _ acc hk]
        exact h

theorem fnFold_erase (k : Str) (dlls : List Dll) (hd : findDll k dlls = none) :
    ∀ (l : PM) (acc : NS),
      l.foldl (fun acc p =>
        match findDll p.1 dlls with
        | some addr => dinsert p.1 (NsVal.fn addr (winfuncArgs p.2) (winfuncRet p.2)) acc
        | none => acc) acc =
      (perase k l).foldl (fun acc p =>
        match findDll p.1 dlls with
        | some addr => dinsert p.1 (NsVal.fn addr (winfuncArgs p.2) (winfuncRet p.2)) acc
        | none => acc) acc := by
  intro l
  induction l with
  | nil => intro acc; rfl
  | cons p rest ih =>
    intro acc
    obtain ⟨a, b⟩ := p
    by_cases hk : a = k
    · simp only [perase, if_pos hk, List.foldl_cons]
      rw [show findDll a dlls = none from hk ▸ hd]
      exact ih acc
    · simp only [perase, if_neg hk, List.foldl_cons]
      exact ih _

/-- Claim C5, amended: a prototyped function that no supplied library
exports is silently omitted from the bound namespace, provided its name
does not collide with a type or constant name (which share the flat
namespace and are copied in first, see the counterexample); every other
entry is bound exactly as if the unresolvable prototype were absent. -/
theorem c5_missing_symbol_omitted (tm : TM) (cm : CM) (pm : PM)
    (dlls : List Dll) (fname : Str)
    (h1 : ∀ d ∈ dlls, dlookup fname d = none)
    (h2 : dlookup fname tm = none) (h3 : dlookup fname cm = none) :
    dlookup fname (ctypes_hook_dict tm cm pm dlls) = none ∧
    ctypes_hook_dll tm cm pm dlls = ctypes_hook_dll tm cm (perase fname pm) dlls := by
  have hfd := findDll_none fname dlls h1
  have hty : dlookup fname (tm.foldl
      (fun acc p => if admissible p.1 then dinsert p.1 (NsVal.ty p.2) acc else acc)
      []) = none := by
    apply foldl_preserve_none fname _ _ tm [] (dlookup_none_forall fname tm h2) rfl
    intro acc p hp
    by_cases hadm : admissible p.1
    · rw [if_pos hadm]
      exact dlookup_dinsert_ne fname p.1 _ acc hp
    · rw [if_neg hadm]
  have hcst : dlookup fname (cm.foldl
      (fun acc p => if admissible p.1 then dinsert p.1 (NsVal.cst p.2) acc else acc)
      (tm.foldl
        (fun acc p => if admissible p.1 then dinsert p.1 (NsVal.ty p.2) acc else acc)
        [])) = none := by
    apply foldl_preserve_none fname _ _ cm _ (dlookup_none_forall fname cm h3) hty
    intro acc p hp
    by_cases hadm : admissible p.1
    · rw [if_pos hadm]
      exact dlookup_dinsert_ne fname p.1 _ acc hp
    · rw [if_neg hadm]
  have hdict : dlookup fname (ctypes_hook_dict tm cm pm dlls) = none := by
    simp only [ctypes_hook_dict]
    exact fnFold_none fname dlls hfd pm _ hcst
  have heq : ctypes_hook_dict tm cm pm dlls =
      ctypes_hook_dict tm cm (perase fname pm) dlls := by
    simp only [ctypes_hook_dict]
    exact fnFold_erase fname dlls hfd pm _
  exact ⟨hdict, by simp only [ctypes_hook_dll, heq]⟩

/-- Witness for the amended C5: a prototype named Gone that the single
supplied library does not export is simply absent from the dict. -/
theorem c5_missing_symbol_omitted_witness :
    dlookup "Gone".data ([( "Other".data, 7)] : Dll) = none ∧
    dlookup "Gone".data (ctypes_hook_dict [] []
      [( "Gone".data, .winfunc "Gone".data none [])] [[( "Other".data, 7)]]) = none :=
  ⟨rfl,
   (c5_missing_symbol_omitted [] [] [( "Gone".data, .winfunc "Gone".data none [])]
     [[( "Other".data, 7)]] "Gone".data (by decide) rfl rfl).1⟩

/-- No position of the text starts a directive/extern/line-comment
token, a closing brace directly followed by a newline, or a block
comment opener. -/
def triggerFree : Str → Bool
  | [] => true
  | c :: rest =>
    ! startDirective (c :: rest) &&
    ! (c = '}' && (match rest with | '\n' :: _ => true | _ => false)) &&
    ! isStartOf "/*".data (c :: rest) &&
    triggerFree rest

theorem preFuel_id (fuel : Nat) :
    ∀ s : Str, s.length ≤ fuel → triggerFree s = true → preFuel fuel s = s := by
  induction fuel with
  | zero =>
    intro s hl _
    have : s = [] := List.length_eq_zero.mp (Nat.le_zero.mp hl)
    rw [this]
    rfl
  | succ f ih =>
    intro s hl htf
    cases s with
    | nil => rfl
    | cons c rest =>
      simp only [triggerFree, Bool.and_eq_true, Bool.not_eq_true'] at htf
      obtain ⟨⟨⟨hd, hb⟩, hc⟩, hrest⟩ := htf
      simp only [preFuel, hd, hb, Bool.false_eq_true, if_false]
      rw [if_neg (by simp [hc])]
      have : rest.length ≤ f := by
        have := hl
        simp only [List.length_cons] at this
        omega
      rw [ih rest this hrest]

/-- Claim C9, amended: the stripper removes each occurrence of a
directive (#ifdef/#else/#endif/#ifndef/#include), of extern, or of //
together with the rest of its line but keeps the newline; each block
comment up to the first closing */; and each closing brace immediately
followed by a newline together with that newline, wherever the brace
occurs, not only on lines consisting solely of a brace; text containing
none of these triggers is preserved unchanged. -/
theorem c9_preprocess_amended :
    (∀ s : Str, triggerFree s = true → ctypes_preprocess s = s) ∧
    ctypes_preprocess "x\x7d\ny".data = "xy".data ∧
    ctypes_preprocess "#include <windows.h>\nint x;\n".data = "\nint x;\n".data ∧
    ctypes_preprocess "#ifdef A\nint x;\n#endif B\n".data = "\nint x;\n\n".data ∧
    ctypes_preprocess "int x; // note\ny;\n".data = "int x; \ny;\n".data ∧
    ctypes_preprocess "a/* blk */b".data = "ab".data ∧
    ctypes_preprocess "myextern q\nz".data = "my\nz".data :=
  ⟨fun s h => preFuel_id s.length s (Nat.le_refl s.length) h,
   rfl, rfl, rfl, rfl, rfl, rfl⟩

/-- Witness for the amended C9: a plain declaration line is returned
verbatim. -/
theorem c9_preprocess_amended_witness :
    triggerFree "int q;\n".data = true ∧
    ctypes_preprocess "int q;\n".data = "int q;\n".data :=
  ⟨by decide, c9_preprocess_amended.1 "int q;\n".data (by decide)⟩

end Twin
